import Mathlib

/-!
# Verification of the authorization / audit subsystem

Shallow embedding of the security-relevant parts of the backend kit:
the credential verifier (`auth.config.ts`), the edge authentication
middleware, the audit-log sink, the server-side authorization guard and
the Zod validation schemas.  External collaborators (Prisma, NextAuth
token crypto, the password hash) are parameters of the embedded
functions, quantified over in the theorems.
-/

namespace Monalo

/-! ## Roles (Prisma enum `Role`) -/

/-- The closed role enumeration from the Prisma schema. -/
inductive Role where
  | CUSTOMER
  | LEARNER
  | WRITER
  | SELLER
  | ADMIN
deriving DecidableEq, Repr

/-! ## Validation layer: `lib/validation/auth.schema.ts`

`loginSchema = z.object({ email: z.string().email(...), password: z.string().min(8, ...) })`.
The email predicate itself belongs to the external Zod library; it is
modelled structurally (one `@`, non-empty local part, dotted non-empty
domain labels).  All theorems below depend only on the branch structure
around the predicate, not on its exact extension. -/

/-- Split a character list at every occurrence of `sep` (like `String.splitOn`
for a one-character separator, written structurally so it evaluates in the kernel). -/
def splitOnChar (sep : Char) : List Char → List (List Char)
  | [] => [[]]
  | c :: cs =>
    match splitOnChar sep cs with
    | [] => [[c]]
    | r :: rs => if c = sep then [] :: r :: rs else (c :: r) :: rs

/-- Structural model of the external `z.string().email()` check. -/
def isValidEmail (s : String) : Bool :=
  match splitOnChar '@' s.data with
  | [lp, domain] =>
      decide (0 < lp.length) &&
      decide (2 ≤ (splitOnChar '.' domain).length) &&
      (splitOnChar '.' domain).all (fun part => decide (0 < part.length))
  | _ => false

instance {ε α : Type} [DecidableEq ε] [DecidableEq α] : DecidableEq (Except ε α) := fun a b =>
  match a, b with
  | .error x, .error y =>
      if h : x = y then .isTrue (by rw [h]) else .isFalse (fun hc => h (Except.error.inj hc))
  | .ok x, .ok y =>
      if h : x = y then .isTrue (by rw [h]) else .isFalse (fun hc => h (Except.ok.inj hc))
  | .error _, .ok _ => .isFalse (fun hc => Except.noConfusion hc)
  | .ok _, .error _ => .isFalse (fun hc => Except.noConfusion hc)

/-- Raw credentials submitted to the credentials provider. -/
structure LoginCredentials where
  email : String
  password : String
deriving DecidableEq

/-- Issue messages produced by `loginSchema.safeParse` (Zod reports all
field violations of one submission together). -/
def loginSchemaIssues (c : LoginCredentials) : List String :=
  (if isValidEmail c.email then [] else ["Invalid email address"]) ++
  (if 8 ≤ c.password.length then [] else ["Password must be at least 8 characters"])

/-! ## Credential verifier: `authorize` in `src/auth.config.ts`

The Prisma lookup `prisma.user.findUnique({ where: { email } })` is a
parameter `findUser`, and the external `verifyPassword` primitive a
parameter `verify`.  `authorizeTr` additionally returns the number of
storage lookups issued, instrumenting the single `findUnique` call site. -/

/-- The row selected by `findUnique` (`select: id, email, username, password, role`).
`password` is the nullable stored digest; `role` is kept optional to model the
falsy-coalescing `user.role || Role.CUSTOMER` at the return site. -/
structure DbUser where
  id : String
  email : String
  username : String
  password : Option String
  role : Option Role
deriving DecidableEq

/-- The identity object returned by `authorize` on success. -/
structure AuthUser where
  id : String
  email : String
  name : String
  role : Role
deriving DecidableEq

/-- Embedding of `authorize` from `src/auth.config.ts`, returning the
result together with the number of user-table lookups performed. -/
def authorizeTr (findUser : String → Option DbUser) (verify : String → String → Bool)
    (c : LoginCredentials) : Except String AuthUser × Nat :=
  match loginSchemaIssues c with
  | [] =>
    match findUser c.email with
    | none => (.error "User not found or not registered with password", 1)
    | some u =>
      match u.password with
      | none => (.error "User not found or not registered with password", 1)
      | some digest =>
        if verify c.password digest then
          (.ok { id := u.id, email := u.email, name := u.username,
                 role := u.role.getD Role.CUSTOMER }, 1)
        else
          (.error "Invalid password", 1)
  | issue :: rest =>
      (.error ("Invalid credentials: " ++ String.intercalate "; " (issue :: rest)), 0)

/-- `authorize` as the caller sees it (lookup count dropped). -/
def authorize (findUser : String → Option DbUser) (verify : String → String → Bool)
    (c : LoginCredentials) : Except String AuthUser :=
  (authorizeTr findUser verify c).1

/-! ### Claims C5, C6, C10 -/

/-- Claim C5: for every structurally invalid login payload (malformed
email, or password shorter than 8 characters), `authorize` fails with a
validation error and zero storage lookups are issued. -/
theorem C5_invalid_login_fails_before_lookup
    (findUser : String → Option DbUser) (verify : String → String → Bool)
    (c : LoginCredentials)
    (h : isValidEmail c.email = false ∨ c.password.length < 8) :
    (authorizeTr findUser verify c).2 = 0 ∧
      ∃ msgs : List String, msgs ≠ [] ∧
        (authorizeTr findUser verify c).1 =
          .error ("Invalid credentials: " ++ String.intercalate "; " msgs) := by
  have hne : loginSchemaIssues c ≠ [] := by
    unfold loginSchemaIssues
    rcases h with h | h
    · rw [h]; simp
    · have : ¬ (8 ≤ c.password.length) := by omega
      simp [this]
  cases hI : loginSchemaIssues c with
  | nil => exact absurd hI hne
  | cons a as =>
      refine ⟨?_, a :: as, by simp, ?_⟩ <;>
        simp [authorizeTr, hI]

/-- Witness for C5 at a concrete malformed payload (password too short). -/
theorem C5_witness :
    (authorizeTr (fun _ => none) (fun _ _ => true) ⟨"alice@example.com", "short"⟩).2 = 0 :=
  (C5_invalid_login_fails_before_lookup (fun _ => none) (fun _ _ => true)
    ⟨"alice@example.com", "short"⟩ (Or.inr (by decide))).1

/-- A concrete user table and verifier used to exhibit the C6 counterexample. -/
def c6db : String → Option DbUser := fun e =>
  if e = "bob@example.com" then
    some { id := "u1", email := "bob@example.com", username := "bob",
           password := some "correcthorse", role := some Role.CUSTOMER }
  else none

/-- Claim C6 counterexample: on the code, an unknown email and a known
email with a mismatching password yield two different error messages, so
the three lookup/verification failure cases are not all indistinguishable. -/
theorem C6_counterexample :
    authorize c6db (fun p d => p == d) ⟨"alice@example.com", "password123"⟩ =
      .error "User not found or not registered with password" ∧
    authorize c6db (fun p d => p == d) ⟨"bob@example.com", "wrongpass999"⟩ =
      .error "Invalid password" ∧
    ("User not found or not registered with password" : String) ≠ "Invalid password" := by
  refine ⟨?_, ?_, by decide⟩ <;> decide

/-- Claim C6 (amended): for every schema-valid login attempt, an unknown
email and a known email without a stored password digest yield the same
generic error, indistinguishable from each other; a password mismatch
yields the distinct generic error "Invalid password". -/
theorem C6_amended_enumeration_safe
    (findUser : String → Option DbUser) (verify : String → String → Bool)
    (c : LoginCredentials)
    (hv : loginSchemaIssues c = [])
    (h : findUser c.email = none ∨ ∃ u, findUser c.email = some u ∧ u.password = none) :
    authorize findUser verify c = .error "User not found or not registered with password" := by
  rcases h with h | ⟨u, hu, hpw⟩ <;>
    simp [authorize, authorizeTr, hv, *]

/-- Witness for the amended C6: the two storage-side cases produce the
same error on a concrete table. -/
theorem C6_amended_witness :
    authorize c6db (fun p d => p == d) ⟨"alice@example.com", "password123"⟩ =
      .error "User not found or not registered with password" :=
  C6_amended_enumeration_safe c6db (fun p d => p == d)
    ⟨"alice@example.com", "password123"⟩ (by decide) (Or.inl (by decide))

/-- Claim C10: on successful credential verification, a user row whose
stored role is null does not fail `authorize` and is returned with role
CUSTOMER. -/
theorem C10_null_role_defaults_to_customer
    (findUser : String → Option DbUser) (verify : String → String → Bool)
    (c : LoginCredentials) (u : DbUser) (digest : String)
    (hv : loginSchemaIssues c = [])
    (hu : findUser c.email = some u)
    (hpw : u.password = some digest)
    (hok : verify c.password digest = true)
    (hrole : u.role = none) :
    authorize findUser verify c =
      .ok { id := u.id, email := u.email, name := u.username, role := Role.CUSTOMER } := by
  simp [authorize, authorizeTr, hv, hu, hpw, hok, hrole]

/-- Witness for C10 at a concrete user with a null role. -/
theorem C10_witness :
    authorize
      (fun e => if e = "bob@example.com" then
        some { id := "u9", email := "bob@example.com", username := "bob",
               password := some "correcthorse", role := none } else none)
      (fun p d => p == d) ⟨"bob@example.com", "correcthorse"⟩ =
      .ok { id := "u9", email := "bob@example.com", name := "bob", role := Role.CUSTOMER } :=
  C10_null_role_defaults_to_customer _ _ _
    { id := "u9", email := "bob@example.com", username := "bob",
      password := some "correcthorse", role := none }
    "correcthorse" (by decide) (by decide) rfl (by decide) rfl

/-! ## Edge Authentication Gate: `middleware` and `config` (middleware source file)

`getToken` (external NextAuth primitive) returns the decoded token when a
cryptographically valid, non-expired token is present and `null`
otherwise; it is modelled as an `Option TokenWithRole` input.  The
redirect `new URL('/login', request.url)` with
`searchParams.set('callbackUrl', pathname)` is modelled as a redirect
result carrying the target path and its query parameters. -/

/-- Decoded JWT shape used by the middleware (`interface TokenWithRole`). -/
structure TokenWithRole where
  sub : Option String
  role : Option String
deriving DecidableEq

/-- Result of the middleware body: a redirect (path plus query
parameters) or `NextResponse.next()` passing the request through. -/
inductive MiddlewareResult where
  | redirect (path : String) (params : List (String × String))
  | next
deriving DecidableEq

/-- Embedding of the `middleware` function body. -/
def middleware (token : Option TokenWithRole) (pathname : String) : MiddlewareResult :=
  match token with
  | none => .redirect "/login" [("callbackUrl", pathname)]
  | some _ => .next

/-- The `config.matcher` array of the middleware source. -/
def configMatcher : List String := ["/dashboard/:path*"]

/-- Next.js matcher semantics for the pattern shapes used by
`configMatcher`: a trailing `/:path*` is a catch-all matching the base
path and every sub-route; any other pattern matches exactly.  Written
over character lists so that it evaluates in the kernel. -/
def patternMatches (pattern pathname : String) : Bool :=
  let pat := pattern.data
  let path := pathname.data
  if List.isPrefixOf ("/:path*".data.reverse) pat.reverse then
    let base := pat.take (pat.length - 7)
    path == base || List.isPrefixOf (base ++ "/".data) path
  else path == pat

/-- A request path is gated when some configured pattern matches it. -/
def matchesGate (pathname : String) : Bool :=
  configMatcher.any (fun pattern => patternMatches pattern pathname)

/-- The edge layer as a whole: the middleware runs only on matched
paths; all other requests are untouched (the middleware is not invoked). -/
inductive EdgeOutcome where
  | untouched
  | result (r : MiddlewareResult)
deriving DecidableEq

/-- Embedding of the edge gate (matcher plus middleware body). -/
def edgeGate (token : Option TokenWithRole) (pathname : String) : EdgeOutcome :=
  if matchesGate pathname then .result (middleware token pathname) else .untouched

/-! ### Claims C3, C4 -/

/-- Claim C3: the edge gate never branches on the role claim — two
requests to a gated path whose tokens agree except possibly on the role
claim (present or absent) produce the same outcome. -/
theorem C3_edge_outcome_role_independent
    (t1 t2 : Option TokenWithRole) (p : String)
    (hg : matchesGate p = true)
    (hsub : t1.map TokenWithRole.sub = t2.map TokenWithRole.sub) :
    edgeGate t1 p = edgeGate t2 p := by
  cases t1 <;> cases t2 <;> simp_all [edgeGate, middleware]

/-- Witness for C3: LEARNER-claim, ADMIN-claim and missing-claim tokens
all pass a gated path identically. -/
theorem C3_witness :
    edgeGate (some ⟨some "u1", some "LEARNER"⟩) "/dashboard/admin" =
      edgeGate (some ⟨some "u1", none⟩) "/dashboard/admin" :=
  C3_edge_outcome_role_independent (some ⟨some "u1", some "LEARNER"⟩)
    (some ⟨some "u1", none⟩) "/dashboard/admin" (by decide) rfl

/-- Claim C4: on a gated path, a request with no valid token is
redirected to /login with callbackUrl set to the original path, a
request with a valid token passes through, and unmatched paths are not
subject to the gate at all. -/
theorem C4_gate_redirect_and_passthrough (p : String) (t : Option TokenWithRole) :
    (matchesGate p = true →
      edgeGate none p = .result (.redirect "/login" [("callbackUrl", p)]) ∧
      ∀ tok : TokenWithRole, edgeGate (some tok) p = .result .next) ∧
    (matchesGate p = false → edgeGate t p = .untouched) := by
  refine ⟨fun h => ⟨?_, fun tok => ?_⟩, fun h => ?_⟩ <;>
    simp [edgeGate, middleware, h]

/-- Witness for C4: the spec scenario (unauthenticated GET to a gated
dashboard path) redirects with the original path as callbackUrl, and a
public path is untouched. -/
theorem C4_witness :
    edgeGate none "/dashboard/admin" =
      .result (.redirect "/login" [("callbackUrl", "/dashboard/admin")]) ∧
    edgeGate none "/about" = .untouched :=
  ⟨((C4_gate_redirect_and_passthrough "/dashboard/admin" none).1 (by decide)).1,
   (C4_gate_redirect_and_passthrough "/about" none).2 (by decide)⟩

/-! ## Server-Side Authorization Guard

Modelled from the spec: the implementations of `requireRole` /
`requireServerRole` live in `lib/auth/role`, which is not among the
available source files (only their callers and the architecture notes
are).  The definition below follows §4.2 of the specification: resolve
the subject id from the token, re-read the authoritative role for that
id from persistent storage (never the token claim), fail fast on an
empty required-role set, deny when unauthenticated or when the stored
role is not a member of the required set. -/

/-- Session token as seen by the guard: subject id plus the advisory
role claim (never read by the decision). -/
structure SessionToken where
  sub : Option String
  roleClaim : Option Role
deriving DecidableEq

/-- Guard outcome per §4.2. -/
inductive GuardResult where
  | authorized (id : String) (role : Role)
  | unauthenticated
  | forbidden
  | configError
deriving DecidableEq

/-- Modelled from the spec: the Server-Side Authorization Guard of §4.2
(`requireRole` / `requireServerRole`).  `dbRole` is the persistent
storage read of the current role for an identity id. -/
def requireRole (dbRole : String → Option Role) (token : Option SessionToken)
    (requiredRoles : List Role) : GuardResult :=
  if requiredRoles = [] then .configError
  else
    match token with
    | none => .unauthenticated
    | some t =>
      match t.sub with
      | none => .unauthenticated
      | some uid =>
        match dbRole uid with
        | none => .unauthenticated
        | some r => if r ∈ requiredRoles then .authorized uid r else .forbidden

/-! ### Claim C1 -/

/-- Claim C1: the guard decision is computed from the role currently
stored for the subject id, never from the token role claim: any two
role claims give the same decision, and that decision is exactly the
membership test of the stored role in the required set. -/
theorem C1_guard_uses_stored_role
    (dbRole : String → Option Role) (s : String) (c1 c2 : Option Role)
    (requiredRoles : List Role) (r : Role)
    (hne : requiredRoles ≠ []) (hdb : dbRole s = some r) :
    requireRole dbRole (some ⟨some s, c1⟩) requiredRoles =
      requireRole dbRole (some ⟨some s, c2⟩) requiredRoles ∧
    requireRole dbRole (some ⟨some s, c1⟩) requiredRoles =
      (if r ∈ requiredRoles then .authorized s r else .forbidden) := by
  constructor <;> simp [requireRole, hne, hdb]

/-- Witness for C1: the spec scenario — token issued with a LEARNER
claim while the stored role was changed to ADMIN: an ADMIN-only guard
allows; with the stored role changed to LEARNER while the token claims
ADMIN, it denies. -/
theorem C1_witness :
    requireRole (fun _ => some Role.ADMIN) (some ⟨some "u1", some Role.LEARNER⟩)
      [Role.ADMIN] = .authorized "u1" Role.ADMIN ∧
    requireRole (fun _ => some Role.LEARNER) (some ⟨some "u1", some Role.ADMIN⟩)
      [Role.ADMIN] = .forbidden :=
  ⟨((C1_guard_uses_stored_role (fun _ => some Role.ADMIN) "u1" (some Role.LEARNER)
      (some Role.LEARNER) [Role.ADMIN] Role.ADMIN (by decide) rfl).2).trans (by decide),
   ((C1_guard_uses_stored_role (fun _ => some Role.LEARNER) "u1" (some Role.ADMIN)
      (some Role.ADMIN) [Role.ADMIN] Role.LEARNER (by decide) rfl).2).trans (by decide)⟩

/-! ## Audit Log Sink: write side (audit-logs source file)

`prisma.activityLog.create` is a parameter `persist` whose behaviour is
arbitrary: `.ok ()` when the row is stored, `.error msg` for any
persistence failure (the thrown error message, or "Unknown error" for a
non-Error throw — the distinction does not matter here).
`crypto.randomUUID()` and `new Date()` are the parameters `uuid` and
`now`.  Each log function is a try/catch: the result type
`Except String LogOutcome` records whether an exception escapes to the
caller; the catch handler converts every persistence failure into a
normal return carrying the operational diagnostic line. -/

/-- Entry type `AccessLogEntry` of the audit-logs source. -/
structure AccessLogEntry where
  userId : String
  userRole : Option String
  route : String
  reason : String
  action : Option String
deriving DecidableEq

/-- Entry for `logAuthFailure` (`Omit<AccessLogEntry, 'userRole'>`). -/
structure AuthFailureEntry where
  userId : String
  route : String
  reason : String
  action : Option String
deriving DecidableEq

/-- Row shape written to `prisma.activityLog` (timestamps abstracted to
integers; `deletedAt` is the soft-delete marker). -/
structure ActivityLogRow where
  id : String
  userId : String
  userRole : Option String
  route : String
  reason : String
  action : String
  pointsEarned : Int
  createdBy : String
  timestamp : Int
  deletedAt : Option Int
deriving DecidableEq

/-- JavaScript `a || b` for an optional string (null, undefined and the
empty string are falsy). -/
def jsOrOptStr (v : Option String) (d : String) : String :=
  match v with
  | some s => if s = "" then d else s
  | none => d

/-- JavaScript `a || b` for a plain string (empty string is falsy). -/
def jsOrStr (s d : String) : String :=
  if s = "" then d else s

/-- What a log call returns to its caller when no exception escapes:
whether the row was persisted and the operational diagnostic emitted on
failure. -/
structure LogOutcome where
  persisted : Bool
  diagnostic : Option String
deriving DecidableEq

/-- Shared try/catch tail of every audit write: attempt to persist, on
failure swallow the error and emit the diagnostic line. -/
def persistSwallowing (persist : ActivityLogRow → Except String Unit)
    (diagnosticTag : String) (row : ActivityLogRow) : Except String LogOutcome :=
  match persist row with
  | .ok _ => .ok { persisted := true, diagnostic := none }
  | .error e => .ok { persisted := false, diagnostic := some (diagnosticTag ++ e) }

/-- Embedding of `logAccessDenied`. -/
def logAccessDenied (persist : ActivityLogRow → Except String Unit)
    (uuid : String) (now : Int) (entry : AccessLogEntry) : Except String LogOutcome :=
  persistSwallowing persist "[Audit] Failed to log access denial: "
    { id := uuid, userId := entry.userId, userRole := entry.userRole,
      route := entry.route, reason := entry.reason,
      action := jsOrOptStr entry.action "DENIED_ACCESS",
      pointsEarned := 0, createdBy := entry.userId, timestamp := now, deletedAt := none }

/-- Embedding of `logAccessAllowed`. -/
def logAccessAllowed (persist : ActivityLogRow → Except String Unit)
    (uuid : String) (now : Int) (entry : AccessLogEntry) : Except String LogOutcome :=
  persistSwallowing persist "[Audit] Failed to log access allowed: "
    { id := uuid, userId := entry.userId, userRole := entry.userRole,
      route := entry.route, reason := entry.reason,
      action := jsOrOptStr entry.action "ALLOWED_ACCESS",
      pointsEarned := 0, createdBy := entry.userId, timestamp := now, deletedAt := none }

/-- Embedding of `logAuthFailure` (row written with `userRole: null`). -/
def logAuthFailure (persist : ActivityLogRow → Except String Unit)
    (uuid : String) (now : Int) (entry : AuthFailureEntry) : Except String LogOutcome :=
  persistSwallowing persist "[Audit] Failed to log auth failure: "
    { id := uuid, userId := entry.userId, userRole := none,
      route := entry.route, reason := entry.reason,
      action := jsOrOptStr entry.action "AUTH_FAILURE",
      pointsEarned := 0, createdBy := entry.userId, timestamp := now, deletedAt := none }

/-- Embedding of `logRoleValidationFailure` (appends the required-roles
set to the reason when one is given and truthy). -/
def logRoleValidationFailure (persist : ActivityLogRow → Except String Unit)
    (uuid : String) (now : Int) (entry : AccessLogEntry)
    (requiredRoles : Option String) : Except String LogOutcome :=
  let reason :=
    match requiredRoles with
    | some req => if req = "" then entry.reason
                  else entry.reason ++ " (Required: " ++ req ++ ")"
    | none => entry.reason
  persistSwallowing persist "[Audit] Failed to log role validation failure: "
    { id := uuid, userId := entry.userId, userRole := entry.userRole,
      route := entry.route, reason := reason,
      action := jsOrOptStr entry.action "ROLE_VALIDATION_FAILED",
      pointsEarned := 0, createdBy := entry.userId, timestamp := now, deletedAt := none }

/-- Embedding of `logFeatureDenied` (prefixes the reason with the denied
feature when one is given and truthy). -/
def logFeatureDenied (persist : ActivityLogRow → Except String Unit)
    (uuid : String) (now : Int) (entry : AccessLogEntry)
    (feature : Option String) : Except String LogOutcome :=
  let reason :=
    match feature with
    | some f => if f = "" then entry.reason
                else "Feature denied: " ++ f ++ ". " ++ entry.reason
    | none => entry.reason
  persistSwallowing persist "[Audit] Failed to log feature denial: "
    { id := uuid, userId := entry.userId, userRole := entry.userRole,
      route := entry.route, reason := reason,
      action := jsOrOptStr entry.action "FEATURE_DENIED",
      pointsEarned := 0, createdBy := entry.userId, timestamp := now, deletedAt := none }

/-- The shared tail never lets an exception escape, and any
non-persisted outcome carries a diagnostic. -/
theorem persistSwallowing_ok (persist : ActivityLogRow → Except String Unit)
    (tag : String) (row : ActivityLogRow) :
    ∃ o : LogOutcome, persistSwallowing persist tag row = .ok o ∧
      (o.persisted = false → o.diagnostic ≠ none) := by
  unfold persistSwallowing
  cases persist row <;> exact ⟨_, rfl, by simp⟩

/-! ### Claim C2 -/

/-- Claim C2: every audit-log write operation, under every behaviour of
the persistence layer, returns normally to its caller (no exception
escapes); any failed persistence yields an emitted diagnostic; and a
surrounding authorization decision sequenced after the write completes
exactly as computed. -/
theorem C2_audit_writes_never_raise {α : Type}
    (persist : ActivityLogRow → Except String Unit) (uuid : String) (now : Int)
    (e1 e2 e4 e5 : AccessLogEntry) (e3 : AuthFailureEntry)
    (requiredRoles feature : Option String) (decision : α) :
    (∃ o, logAccessDenied persist uuid now e1 = .ok o ∧
      (o.persisted = false → o.diagnostic ≠ none)) ∧
    (∃ o, logAccessAllowed persist uuid now e2 = .ok o ∧
      (o.persisted = false → o.diagnostic ≠ none)) ∧
    (∃ o, logAuthFailure persist uuid now e3 = .ok o ∧
      (o.persisted = false → o.diagnostic ≠ none)) ∧
    (∃ o, logRoleValidationFailure persist uuid now e4 requiredRoles = .ok o ∧
      (o.persisted = false → o.diagnostic ≠ none)) ∧
    (∃ o, logFeatureDenied persist uuid now e5 feature = .ok o ∧
      (o.persisted = false → o.diagnostic ≠ none)) ∧
    Except.bind (logAccessDenied persist uuid now e1) (fun _ => Except.ok decision) =
      Except.ok decision := by
  refine ⟨persistSwallowing_ok _ _ _, persistSwallowing_ok _ _ _,
    persistSwallowing_ok _ _ _, persistSwallowing_ok _ _ _,
    persistSwallowing_ok _ _ _, ?_⟩
  obtain ⟨o, ho, -⟩ := persistSwallowing_ok persist
    "[Audit] Failed to log access denial: "
    { id := uuid, userId := e1.userId, userRole := e1.userRole,
      route := e1.route, reason := e1.reason,
      action := jsOrOptStr e1.action "DENIED_ACCESS",
      pointsEarned := 0, createdBy := e1.userId, timestamp := now, deletedAt := none }
  simp [logAccessDenied, ho, Except.bind]

/-- Witness for C2 with a concretely failing persistence layer: the call
returns normally and its outcome records the failure diagnostic. -/
theorem C2_witness :
    ∃ o, logAccessDenied (fun _ => Except.error "storage unavailable") "id-1" 0
        ⟨"user-123", some "LEARNER", "/dashboard/admin", "Insufficient role", none⟩ =
        .ok o ∧ (o.persisted = false → o.diagnostic ≠ none) :=
  (C2_audit_writes_never_raise (fun _ => Except.error "storage unavailable") "id-1" 0
    ⟨"user-123", some "LEARNER", "/dashboard/admin", "Insufficient role", none⟩
    ⟨"user-123", some "LEARNER", "/dashboard/admin", "Insufficient role", none⟩
    ⟨"user-123", some "LEARNER", "/dashboard/admin", "Insufficient role", none⟩
    ⟨"user-123", some "LEARNER", "/dashboard/admin", "Insufficient role", none⟩
    ⟨"user-123", "/login", "Bad credentials", none⟩
    none none (0 : Nat)).1

/-! ## Stable descending sort

Model of `orderBy: { timestamp: 'desc' }` and of the JavaScript
`Array.prototype.sort((a, b) => b.count - a.count)` (a stable sort,
descending on the key).  A stable insertion sort: an element is placed
before the first existing element of smaller-or-equal key, so elements
of equal key keep their original relative order. -/

/-- Insert `x` into `l` before the first element whose key is ≤ `key x`. -/
def insertDescBy {α β : Type} [LinearOrder β] (key : α → β) (x : α) : List α → List α
  | [] => [x]
  | y :: ys => if key y ≤ key x then x :: y :: ys else y :: insertDescBy key x ys

/-- Stable sort, descending on `key`. -/
def sortDescBy {α β : Type} [LinearOrder β] (key : α → β) : List α → List α
  | [] => []
  | x :: xs => insertDescBy key x (sortDescBy key xs)

theorem mem_insertDescBy {α β : Type} [LinearOrder β] (key : α → β) (x a : α)
    (l : List α) : a ∈ insertDescBy key x l ↔ a = x ∨ a ∈ l := by
  induction l with
  | nil => simp [insertDescBy]
  | cons y ys ih =>
    unfold insertDescBy
    by_cases h : key y ≤ key x <;> (simp [h, ih]; try tauto)

theorem insertDescBy_perm {α β : Type} [LinearOrder β] (key : α → β) (x : α)
    (l : List α) : List.Perm (insertDescBy key x l) (x :: l) := by
  induction l with
  | nil => rfl
  | cons y ys ih =>
    unfold insertDescBy
    by_cases h : key y ≤ key x
    · rw [if_pos h]
    · rw [if_neg h]
      exact (ih.cons y).trans (List.Perm.swap x y ys)

theorem sortDescBy_perm {α β : Type} [LinearOrder β] (key : α → β) (l : List α) :
    List.Perm (sortDescBy key l) l := by
  induction l with
  | nil => rfl
  | cons x xs ih =>
    exact (insertDescBy_perm key x (sortDescBy key xs)).trans (ih.cons x)

theorem insertDescBy_pairwise {α β : Type} [LinearOrder β] (key : α → β) (x : α)
    (l : List α) (h : l.Pairwise (fun a b => key b ≤ key a)) :
    (insertDescBy key x l).Pairwise (fun a b => key b ≤ key a) := by
  induction l with
  | nil => simp [insertDescBy]
  | cons y ys ih =>
    rw [List.pairwise_cons] at h
    obtain ⟨hy, hys⟩ := h
    unfold insertDescBy
    by_cases hk : key y ≤ key x
    · rw [if_pos hk, List.pairwise_cons]
      refine ⟨fun z hz => ?_, List.pairwise_cons.mpr ⟨hy, hys⟩⟩
      rcases List.mem_cons.mp hz with rfl | hz
      · exact hk
      · exact le_trans (hy z hz) hk
    · rw [if_neg hk, List.pairwise_cons]
      refine ⟨fun z hz => ?_, ih hys⟩
      rcases (mem_insertDescBy key x z ys).mp hz with rfl | hz
      · exact le_of_lt (not_le.mp hk)
      · exact hy z hz

theorem sortDescBy_pairwise {α β : Type} [LinearOrder β] (key : α → β) (l : List α) :
    (sortDescBy key l).Pairwise (fun a b => key b ≤ key a) := by
  induction l with
  | nil => simp [sortDescBy]
  | cons x xs ih => exact insertDescBy_pairwise key x (sortDescBy key xs) ih

theorem filter_insertDescBy {α β : Type} [LinearOrder β] [DecidableEq β]
    (key : α → β) (c : β) (x : α) (l : List α) :
    (insertDescBy key x l).filter (fun a => decide (key a = c)) =
      if key x = c then x :: l.filter (fun a => decide (key a = c))
      else l.filter (fun a => decide (key a = c)) := by
  induction l with
  | nil =>
    by_cases hc : key x = c <;> simp [insertDescBy, List.filter, hc]
  | cons y ys ih =>
    unfold insertDescBy
    by_cases h : key y ≤ key x
    · rw [if_pos h]
      by_cases hc : key x = c <;> simp [List.filter_cons, hc]
    · rw [if_neg h]
      by_cases hc : key x = c
      · have hyc : key y ≠ c := fun hyc => h (le_of_eq (hyc.trans hc.symm))
        simp [List.filter_cons, ih, hc, hyc]
      · simp [List.filter_cons, ih, hc]

/-- Stability of the sort: the elements of any fixed key value appear in
the sorted list exactly in their original order. -/
theorem sortDescBy_filter_eq {α β : Type} [LinearOrder β] [DecidableEq β]
    (key : α → β) (c : β) (l : List α) :
    (sortDescBy key l).filter (fun a => decide (key a = c)) =
      l.filter (fun a => decide (key a = c)) := by
  induction l with
  | nil => rfl
  | cons x xs ih =>
    rw [sortDescBy, filter_insertDescBy, ih, List.filter_cons]
    by_cases hc : key x = c <;> simp [hc]

theorem pairwise_sortDescBy_take {α β : Type} [LinearOrder β] (key : α → β)
    (n : Nat) (l : List α) :
    ((sortDescBy key l).take n).Pairwise (fun a b => key b ≤ key a) :=
  List.Pairwise.sublist (List.take_sublist n (sortDescBy key l))
    (sortDescBy_pairwise key l)

theorem mem_of_mem_sortDescBy_take {α β : Type} [LinearOrder β] (key : α → β)
    (n : Nat) (l : List α) (a : α) (h : a ∈ (sortDescBy key l).take n) : a ∈ l :=
  (sortDescBy_perm key l).subset ((List.take_sublist n (sortDescBy key l)).subset h)

/-! ## Audit Log Sink: read side

The reads operate against a persistence layer that either yields the
stored rows (in storage order) or fails; every read body is wrapped in a
try/catch whose handler returns an empty (list reads) or zeroed
(summary) result.  `new Date()` minus `days` days is abstracted to
integer timestamps: `sinceDate := now - days`. -/

/-- Behaviour of `prisma.activityLog.findMany` for one call: the rows it
would yield, or a persistence failure. -/
abbrev DbState := Except String (List ActivityLogRow)

/-- Where-clause of `getAccessDenialLogs` (`userId` equals, `action`
equals the filter or its default, `timestamp` gte, `deletedAt` null). -/
def denialLogsWhere (userId : String) (sinceDate : Int) (action : Option String)
    (r : ActivityLogRow) : Bool :=
  decide (r.userId = userId) &&
  decide (r.action = jsOrOptStr action "DENIED_ACCESS") &&
  decide (sinceDate ≤ r.timestamp) &&
  decide (r.deletedAt = none)

/-- Embedding of `getAccessDenialLogs`. -/
def getAccessDenialLogs (db : DbState) (now : Int) (userId : String)
    (days : Option Int) (action : Option String) (limit : Option Nat) :
    List ActivityLogRow :=
  match db with
  | .error _ => []
  | .ok rows =>
    (sortDescBy (fun r => r.timestamp)
      (rows.filter (denialLogsWhere userId (now - days.getD 30) action))).take
      (limit.getD 100)

/-- Where-clause of `getAccessDenialsByRole`. -/
def denialsByRoleWhere (userRole : String) (sinceDate : Int)
    (r : ActivityLogRow) : Bool :=
  decide (r.userRole = some userRole) &&
  decide (r.action = "DENIED_ACCESS") &&
  decide (sinceDate ≤ r.timestamp) &&
  decide (r.deletedAt = none)

/-- Embedding of `getAccessDenialsByRole`. -/
def getAccessDenialsByRole (db : DbState) (now : Int) (userRole : String)
    (days : Option Int) (limit : Option Nat) : List ActivityLogRow :=
  match db with
  | .error _ => []
  | .ok rows =>
    (sortDescBy (fun r => r.timestamp)
      (rows.filter (denialsByRoleWhere userRole (now - days.getD 30)))).take
      (limit.getD 100)

/-- Where-clause of `getAccessDenialsByRoute`. -/
def denialsByRouteWhere (route : String) (sinceDate : Int)
    (r : ActivityLogRow) : Bool :=
  decide (r.route = route) &&
  decide (r.action = "DENIED_ACCESS") &&
  decide (sinceDate ≤ r.timestamp) &&
  decide (r.deletedAt = none)

/-- Embedding of `getAccessDenialsByRoute`. -/
def getAccessDenialsByRoute (db : DbState) (now : Int) (route : String)
    (days : Option Int) (limit : Option Nat) : List ActivityLogRow :=
  match db with
  | .error _ => []
  | .ok rows =>
    (sortDescBy (fun r => r.timestamp)
      (rows.filter (denialsByRouteWhere route (now - days.getD 30)))).take
      (limit.getD 100)

/-- Where-clause of the `findMany` inside `getAccessDenialSummary`
(no `orderBy`, no `take` in the source query). -/
def summaryWhere (sinceDate : Int) (r : ActivityLogRow) : Bool :=
  decide (r.action = "DENIED_ACCESS") &&
  decide (sinceDate ≤ r.timestamp) &&
  decide (r.deletedAt = none)

/-- The read underlying `getAccessDenialSummary`: the rows its
`findMany` yields, in storage order (the query applies no ordering). -/
def getAccessDenialSummaryRead (db : DbState) (now : Int) (days : Option Int) :
    List ActivityLogRow :=
  match db with
  | .error _ => []
  | .ok rows => rows.filter (summaryWhere (now - days.getD 30))

/-- `denialsByRole[role] = (denialsByRole[role] || 0) + 1` over a record
whose key order is insertion order: modelled as an association list. -/
def bumpCount (k : String) : List (String × Nat) → List (String × Nat)
  | [] => [(k, 1)]
  | (k0, n) :: rest =>
      if k0 = k then (k0, n + 1) :: rest else (k0, n) :: bumpCount k rest

/-- The grouping loops of `getAccessDenialSummary`. -/
def groupCounts {α : Type} (key : α → String) (xs : List α) : List (String × Nat) :=
  xs.foldl (fun acc x => bumpCount (key x) acc) []

/-- `log.userRole || 'UNKNOWN'`. -/
def summaryRoleKey (r : ActivityLogRow) : String := jsOrOptStr r.userRole "UNKNOWN"

/-- `log.route || 'UNKNOWN'`. -/
def summaryRouteKey (r : ActivityLogRow) : String := jsOrStr r.route "UNKNOWN"

/-- Return shape of `getAccessDenialSummary`; the groupings and top
lists are association lists in insertion order. -/
structure DenialSummary where
  totalDenials : Nat
  denialsByRole : List (String × Nat)
  denialsByRoute : List (String × Nat)
  topDeniedRoutes : List (String × Nat)
  topDeniedRoles : List (String × Nat)
deriving DecidableEq

/-- Embedding of `getAccessDenialSummary`. -/
def getAccessDenialSummary (db : DbState) (now : Int) (days : Option Int) :
    DenialSummary :=
  match db with
  | .error _ =>
      { totalDenials := 0, denialsByRole := [], denialsByRoute := [],
        topDeniedRoutes := [], topDeniedRoles := [] }
  | .ok rows =>
    let denials := rows.filter (summaryWhere (now - days.getD 30))
    let byRole := groupCounts summaryRoleKey denials
    let byRoute := groupCounts summaryRouteKey denials
    { totalDenials := denials.length,
      denialsByRole := byRole,
      denialsByRoute := byRoute,
      topDeniedRoutes := (sortDescBy (fun e => e.2) byRoute).take 10,
      topDeniedRoles := (sortDescBy (fun e => e.2) byRole).take 10 }

/-! ### Claims C7, C8 -/

theorem getAccessDenialLogs_not_deleted (db : DbState) (now : Int) (userId : String)
    (days : Option Int) (action : Option String) (limit : Option Nat) :
    ∀ r ∈ getAccessDenialLogs db now userId days action limit, r.deletedAt = none := by
  cases db with
  | error e => simp [getAccessDenialLogs]
  | ok rows =>
    intro r hr
    simp only [getAccessDenialLogs] at hr
    have hmem := mem_of_mem_sortDescBy_take _ _ _ _ hr
    have hp := (List.mem_filter.mp hmem).2
    simp [denialLogsWhere] at hp
    tauto

theorem getAccessDenialsByRole_not_deleted (db : DbState) (now : Int)
    (userRole : String) (days : Option Int) (limit : Option Nat) :
    ∀ r ∈ getAccessDenialsByRole db now userRole days limit, r.deletedAt = none := by
  cases db with
  | error e => simp [getAccessDenialsByRole]
  | ok rows =>
    intro r hr
    simp only [getAccessDenialsByRole] at hr
    have hmem := mem_of_mem_sortDescBy_take _ _ _ _ hr
    have hp := (List.mem_filter.mp hmem).2
    simp [denialsByRoleWhere] at hp
    tauto

theorem getAccessDenialsByRoute_not_deleted (db : DbState) (now : Int)
    (route : String) (days : Option Int) (limit : Option Nat) :
    ∀ r ∈ getAccessDenialsByRoute db now route days limit, r.deletedAt = none := by
  cases db with
  | error e => simp [getAccessDenialsByRoute]
  | ok rows =>
    intro r hr
    simp only [getAccessDenialsByRoute] at hr
    have hmem := mem_of_mem_sortDescBy_take _ _ _ _ hr
    have hp := (List.mem_filter.mp hmem).2
    simp [denialsByRouteWhere] at hp
    tauto

theorem getAccessDenialSummaryRead_not_deleted (db : DbState) (now : Int)
    (days : Option Int) :
    ∀ r ∈ getAccessDenialSummaryRead db now days, r.deletedAt = none := by
  cases db with
  | error e => simp [getAccessDenialSummaryRead]
  | ok rows =>
    intro r hr
    simp only [getAccessDenialSummaryRead] at hr
    have hp := (List.mem_filter.mp hr).2
    simp [summaryWhere] at hp
    tauto

theorem getAccessDenialSummary_top_eq (db : DbState) (now : Int) (days : Option Int) :
    (getAccessDenialSummary db now days).topDeniedRoutes =
      (sortDescBy (fun e => e.2)
        (groupCounts summaryRouteKey (getAccessDenialSummaryRead db now days))).take 10 ∧
    (getAccessDenialSummary db now days).topDeniedRoles =
      (sortDescBy (fun e => e.2)
        (groupCounts summaryRoleKey (getAccessDenialSummaryRead db now days))).take 10 := by
  cases db with
  | error e => exact ⟨rfl, rfl⟩
  | ok rows => exact ⟨rfl, rfl⟩

/-- Claim C7 (amended): the three list reads exclude soft-deleted
entries and are ordered newest-first; the read underlying `summarize`
excludes soft-deleted entries but applies no ordering (rows come back in
storage order); `summarize` ranks its top lists by descending count with
ties broken by the insertion order of the groupings of that unordered
read (first occurrence in the returned rows). -/
theorem C7_amended_reads_ordering (db : DbState) (now : Int)
    (userId roleStr routeStr : String) (days d2 : Option Int)
    (action : Option String) (limit : Option Nat) :
    ((getAccessDenialLogs db now userId days action limit).Pairwise
        (fun a b => b.timestamp ≤ a.timestamp) ∧
      ∀ r ∈ getAccessDenialLogs db now userId days action limit, r.deletedAt = none) ∧
    ((getAccessDenialsByRole db now roleStr days limit).Pairwise
        (fun a b => b.timestamp ≤ a.timestamp) ∧
      ∀ r ∈ getAccessDenialsByRole db now roleStr days limit, r.deletedAt = none) ∧
    ((getAccessDenialsByRoute db now routeStr days limit).Pairwise
        (fun a b => b.timestamp ≤ a.timestamp) ∧
      ∀ r ∈ getAccessDenialsByRoute db now routeStr days limit, r.deletedAt = none) ∧
    (∀ r ∈ getAccessDenialSummaryRead db now d2, r.deletedAt = none) ∧
    ((getAccessDenialSummary db now d2).topDeniedRoutes =
        (sortDescBy (fun e => e.2)
          (groupCounts summaryRouteKey (getAccessDenialSummaryRead db now d2))).take 10 ∧
      (getAccessDenialSummary db now d2).topDeniedRoles =
        (sortDescBy (fun e => e.2)
          (groupCounts summaryRoleKey (getAccessDenialSummaryRead db now d2))).take 10) ∧
    ((getAccessDenialSummary db now d2).topDeniedRoutes.Pairwise
        (fun a b => b.2 ≤ a.2) ∧
      (getAccessDenialSummary db now d2).topDeniedRoles.Pairwise
        (fun a b => b.2 ≤ a.2)) ∧
    (∀ c : Nat,
      (sortDescBy (fun e => e.2)
          (groupCounts summaryRouteKey (getAccessDenialSummaryRead db now d2))).filter
          (fun e => decide (e.2 = c)) =
        (groupCounts summaryRouteKey (getAccessDenialSummaryRead db now d2)).filter
          (fun e => decide (e.2 = c)) ∧
      (sortDescBy (fun e => e.2)
          (groupCounts summaryRoleKey (getAccessDenialSummaryRead db now d2))).filter
          (fun e => decide (e.2 = c)) =
        (groupCounts summaryRoleKey (getAccessDenialSummaryRead db now d2)).filter
          (fun e => decide (e.2 = c))) := by
  refine ⟨⟨?_, getAccessDenialLogs_not_deleted db now userId days action limit⟩,
    ⟨?_, getAccessDenialsByRole_not_deleted db now roleStr days limit⟩,
    ⟨?_, getAccessDenialsByRoute_not_deleted db now routeStr days limit⟩,
    getAccessDenialSummaryRead_not_deleted db now d2,
    getAccessDenialSummary_top_eq db now d2,
    ⟨?_, ?_⟩,
    fun c => ⟨sortDescBy_filter_eq _ c _, sortDescBy_filter_eq _ c _⟩⟩
  · cases db with
    | error e => simp [getAccessDenialLogs]
    | ok rows => exact pairwise_sortDescBy_take _ _ _
  · cases db with
    | error e => simp [getAccessDenialsByRole]
    | ok rows => exact pairwise_sortDescBy_take _ _ _
  · cases db with
    | error e => simp [getAccessDenialsByRoute]
    | ok rows => exact pairwise_sortDescBy_take _ _ _
  · rw [(getAccessDenialSummary_top_eq db now d2).1]
    exact pairwise_sortDescBy_take _ _ _
  · rw [(getAccessDenialSummary_top_eq db now d2).2]
    exact pairwise_sortDescBy_take _ _ _

/-- Witness for C7 (amended) at a concrete store. -/
theorem C7_amended_witness :
    ∀ r ∈ getAccessDenialLogs
        (.ok [{ id := "a1", userId := "u1", userRole := some "LEARNER",
                route := "/dashboard/admin", reason := "denied",
                action := "DENIED_ACCESS", pointsEarned := 0, createdBy := "u1",
                timestamp := 1, deletedAt := none }])
        2 "u1" none none none, r.deletedAt = none :=
  (C7_amended_reads_ordering
    (.ok [{ id := "a1", userId := "u1", userRole := some "LEARNER",
            route := "/dashboard/admin", reason := "denied",
            action := "DENIED_ACCESS", pointsEarned := 0, createdBy := "u1",
            timestamp := 1, deletedAt := none }])
    2 "u1" "LEARNER" "/dashboard/admin" none none none none).1.2

/-- Rows used in the C7 counterexample: an older and a newer denial,
stored oldest-first. -/
def c7rowOld : ActivityLogRow :=
  { id := "a1", userId := "u1", userRole := some "LEARNER",
    route := "/dashboard/admin", reason := "denied", action := "DENIED_ACCESS",
    pointsEarned := 0, createdBy := "u1", timestamp := 1, deletedAt := none }

/-- The newer of the two C7 counterexample rows. -/
def c7rowNew : ActivityLogRow :=
  { id := "a2", userId := "u1", userRole := some "LEARNER",
    route := "/dashboard/admin", reason := "denied", action := "DENIED_ACCESS",
    pointsEarned := 0, createdBy := "u1", timestamp := 2, deletedAt := none }

/-- Claim C7 counterexample: the `findMany` underlying
`getAccessDenialSummary` has no `orderBy`, so on a store holding an
older entry before a newer one the underlying read returns them
oldest-first — not ordered newest-first as the claim states for every
audit-log read. -/
theorem C7_counterexample :
    getAccessDenialSummaryRead (.ok [c7rowOld, c7rowNew]) 2 none =
      [c7rowOld, c7rowNew] ∧
    ¬ ([c7rowOld, c7rowNew].Pairwise
        (fun a b => b.timestamp ≤ a.timestamp)) := by
  constructor
  · decide
  · intro h
    have h2 := (List.pairwise_cons.mp h).1 c7rowNew (by simp)
    exact absurd h2 (by decide)

/-- Claim C8: every persistence failure during a read yields the empty
list for the three list reads and the fully zeroed summary, with no
error propagating. -/
theorem C8_read_failures_return_empty (msg : String) (now : Int)
    (userId roleStr routeStr : String) (days : Option Int)
    (action : Option String) (limit : Option Nat) :
    getAccessDenialLogs (.error msg) now userId days action limit = [] ∧
    getAccessDenialsByRole (.error msg) now roleStr days limit = [] ∧
    getAccessDenialsByRoute (.error msg) now routeStr days limit = [] ∧
    getAccessDenialSummary (.error msg) now days =
      { totalDenials := 0, denialsByRole := [], denialsByRoute := [],
        topDeniedRoutes := [], topDeniedRoles := [] } :=
  ⟨rfl, rfl, rfl, rfl⟩

/-! ## Validation layer: order schema

`orderItemSchema = z.object({ productId: z.string().min(1, ...),
quantity: z.number().int().min(1, ...) })` and
`orderSchema = z.object({ userId?, items: z.array(orderItemSchema).min(1, ...),
shippingAddress?, paymentMethod? })`.  JavaScript numbers are modelled
as rationals so that the `.int()` check is expressible; as in the login
schema, all violations of one submission are reported together. -/

/-- One entry of the `items` array. -/
structure OrderItemInput where
  productId : String
  quantity : Rat
deriving DecidableEq

/-- An order submission. -/
structure OrderInput where
  userId : Option String
  items : List OrderItemInput
  shippingAddress : Option String
  paymentMethod : Option String
deriving DecidableEq

/-- Issue messages of `orderItemSchema` for one item. -/
def orderItemIssues (it : OrderItemInput) : List String :=
  (if 1 ≤ it.productId.length then [] else ["productId is required"]) ++
  (if it.quantity.den = 1 then [] else ["Expected integer, received float"]) ++
  (if 1 ≤ it.quantity then [] else ["quantity must be at least 1"])

/-- Issue messages of `orderSchema.safeParse` for one submission. -/
def orderSchemaIssues (o : OrderInput) : List String :=
  (if 1 ≤ o.items.length then [] else ["At least one order item is required"]) ++
  (o.items.map orderItemIssues).flatten

/-! ### Claim C9 -/

theorem orderItemIssues_eq_nil (it : OrderItemInput) :
    orderItemIssues it = [] ↔
      1 ≤ it.productId.length ∧ it.quantity.den = 1 ∧ 1 ≤ it.quantity := by
  unfold orderItemIssues
  split_ifs <;> simp_all

/-- The order submission used in the C9 counterexample: one well-formed
item and one item with an empty productId. -/
def c9input : OrderInput :=
  { userId := none,
    items := [⟨"p1", 1⟩, ⟨"", 1⟩],
    shippingAddress := none, paymentMethod := none }

/-- Claim C9 counterexample: a submission whose items array contains at
least one entry with integer quantity ≥ 1 and a non-empty productId is
nevertheless rejected, because the schema requires every item to be
well-formed, not just one. -/
theorem C9_counterexample :
    (∃ it ∈ c9input.items,
      1 ≤ it.quantity ∧ it.quantity.den = 1 ∧ 1 ≤ it.productId.length) ∧
    orderSchemaIssues c9input ≠ [] := by
  constructor
  · exact ⟨⟨"p1", 1⟩, by decide, by norm_num, by decide, by decide⟩
  · decide

/-- Claim C9 (amended): the order schema accepts a submission exactly
when its items array is non-empty and every entry has a non-empty
productId and an integer quantity ≥ 1; a submission with an empty items
array is rejected with the issue "At least one order item is required". -/
theorem C9_amended_order_schema (o : OrderInput) :
    (orderSchemaIssues o = [] ↔
      o.items ≠ [] ∧ ∀ it ∈ o.items,
        1 ≤ it.productId.length ∧ it.quantity.den = 1 ∧ 1 ≤ it.quantity) ∧
    (o.items = [] →
      "At least one order item is required" ∈ orderSchemaIssues o) := by
  constructor
  · unfold orderSchemaIssues
    constructor
    · intro h
      rw [List.append_eq_nil] at h
      obtain ⟨h1, h2⟩ := h
      constructor
      · intro hnil
        rw [hnil] at h1
        simp at h1
      · intro it hit
        rw [List.flatten_eq_nil_iff] at h2
        have := h2 (orderItemIssues it) (List.mem_map_of_mem _ hit)
        exact (orderItemIssues_eq_nil it).mp this
    · rintro ⟨hne, hall⟩
      have h1 : 1 ≤ o.items.length := by
        cases hi : o.items with
        | nil => exact absurd hi hne
        | cons a as => simp [hi]
      rw [if_pos h1, List.nil_append, List.flatten_eq_nil_iff]
      intro l hl
      rw [List.mem_map] at hl
      obtain ⟨it, hit, rfl⟩ := hl
      exact (orderItemIssues_eq_nil it).mpr (hall it hit)
  · intro h
    simp [orderSchemaIssues, h]

/-- Witness for the amended C9: a concrete valid submission is accepted
and the empty-items submission is rejected with the required message. -/
theorem C9_amended_witness :
    orderSchemaIssues
      { userId := none, items := [⟨"p1", 2⟩],
        shippingAddress := none, paymentMethod := none } = [] ∧
    "At least one order item is required" ∈ orderSchemaIssues
      { userId := some "u1", items := [],
        shippingAddress := none, paymentMethod := none } :=
  ⟨(C9_amended_order_schema
      { userId := none, items := [⟨"p1", 2⟩],
        shippingAddress := none, paymentMethod := none }).1.mpr
      ⟨by decide, by
        intro it hit
        simp at hit
        subst hit
        refine ⟨by decide, by decide, by norm_num⟩⟩,
   (C9_amended_order_schema
      { userId := some "u1", items := [],
        shippingAddress := none, paymentMethod := none }).2 rfl⟩

end Monalo
